import Mathlib

/-
Verification of the miheater integration (custom_components/miheater).

Shallow embedding of the two source files:
  - custom_components/miheater/__init__.py   (setup probe, ConfigEntryNotReady)
  - custom_components/miheater/climate.py    (coordinator, climate entity commands)

Device-library calls (miio) are modelled as oracle arguments: a call either
returns a value or raises an exception.  Each handler is embedded as a pure
function from its inputs and the device call results to an outcome record
listing the device calls made, the refresh requests issued and the exception
raised (if any), mirroring the straight-line control flow of the source.
-/

namespace MiHeater

/-- Kinds of connectivity failure covered by the device library's
DeviceException (spec §4.1: timeouts, refused connections,
authentication/token mismatches, not distinguished further). -/
inductive DeviceErrorKind where
  | timeout
  | refused
  | authMismatch
deriving DecidableEq, Repr

/-- Exceptions the device-library calls can raise, as caught by the source:
DeviceException (miio) and OSError (caught in __init__.py's setup probe). -/
inductive DevError where
  | deviceException (k : DeviceErrorKind)
  | osError
deriving DecidableEq, Repr

/-- Result of one blocking device-library call: a returned value or a raised
exception. -/
inductive CallResult (α : Type) where
  | ok (a : α)
  | exn (e : DevError)
deriving DecidableEq, Repr

/-- Status snapshot returned by device.status(), with the fields read by
climate.py (data.is_on, data.temperature, data.target_temperature).
Temperatures are modelled as rationals. -/
structure DeviceStatus where
  is_on : Bool
  temperature : ℚ
  target_temperature : ℚ
deriving DecidableEq, Repr

/-! ## Climate entity: temperature range attributes (climate.py lines 115-123) -/

/-- MiHeaterClimate.min_temp property: returns 16. -/
def min_temp : ℚ := 16

/-- MiHeaterClimate.max_temp property: returns 32. -/
def max_temp : ℚ := 32

/-! ## MiHeaterClimate.async_set_temperature (climate.py lines 125-132) -/

/-- Observable outcome of one call to async_set_temperature: the arguments
passed to device.set_target_temperature, the number of
coordinator.async_request_refresh calls, and the exception propagated to the
caller, if any. -/
structure SetTempOutcome where
  setTargetCalls : List ℚ
  refreshRequests : Nat
  raised : Option DevError
deriving DecidableEq, Repr

/-- async_set_temperature: reads ATTR_TEMPERATURE from kwargs (None when
absent).  If it is not None, runs device.set_target_temperature(temperature)
in the executor and then awaits coordinator.async_request_refresh().  An
exception raised by the device call propagates and the refresh line is not
reached.  There is no range check in this method. -/
def async_set_temperature (temperature : Option ℚ)
    (set_target_temperature : ℚ → CallResult Unit) : SetTempOutcome :=
  match temperature with
  | none => { setTargetCalls := [], refreshRequests := 0, raised := none }
  | some t =>
    match set_target_temperature t with
    | .ok _ => { setTargetCalls := [t], refreshRequests := 1, raised := none }
    | .exn e => { setTargetCalls := [t], refreshRequests := 0, raised := some e }

/-! ## MiHeaterClimate.async_set_hvac_mode (climate.py lines 134-143) -/

/-- The HVAC modes of the host platform's HVACMode enum. -/
inductive HVACMode where
  | off
  | heat
  | cool
  | heat_cool
  | auto
  | dry
  | fan_only
deriving DecidableEq, Repr

/-- Observable outcome of one call to async_set_hvac_mode: how many times
device.on and device.off were invoked, how many refresh requests were issued,
the exception propagated (if any), and whether the unsupported-mode error was
logged. -/
structure SetModeOutcome where
  onCalls : Nat
  offCalls : Nat
  refreshRequests : Nat
  raised : Option DevError
  loggedError : Bool
deriving DecidableEq, Repr

/-- async_set_hvac_mode: HEAT runs device.on, OFF runs device.off, any other
mode logs an error and returns; after a device call that returns normally,
coordinator.async_request_refresh() is awaited.  An exception raised by the
device call propagates and the refresh line is not reached. -/
def async_set_hvac_mode (hvac_mode : HVACMode)
    (on_result off_result : CallResult Unit) : SetModeOutcome :=
  match hvac_mode with
  | .heat =>
    match on_result with
    | .ok _ =>
      { onCalls := 1, offCalls := 0, refreshRequests := 1,
        raised := none, loggedError := false }
    | .exn e =>
      { onCalls := 1, offCalls := 0, refreshRequests := 0,
        raised := some e, loggedError := false }
  | .off =>
    match off_result with
    | .ok _ =>
      { onCalls := 0, offCalls := 1, refreshRequests := 1,
        raised := none, loggedError := false }
    | .exn e =>
      { onCalls := 0, offCalls := 1, refreshRequests := 0,
        raised := some e, loggedError := false }
  | _ =>
    { onCalls := 0, offCalls := 0, refreshRequests := 0,
      raised := none, loggedError := true }

/-! ## Configuration and coordinator construction (climate.py lines 29-61) -/

/-- Modelled from the spec: custom_components/miheater/const.py is imported by
both source files (DOMAIN, DEFAULT_UPDATE_INTERVAL) but is not present in the
repository snapshot; the spec's configuration section gives the poll interval
default of 30 seconds. -/
def DEFAULT_UPDATE_INTERVAL : Nat := 30

/-- The data of one config entry.  The source reads entry.data.get for the
keys host and token; the spec additionally names a pollIntervalSeconds field
(default 30), carried here so claims about it can be stated. -/
structure ConfigEntryData where
  host : String
  token : String
  pollIntervalSeconds : Option Nat
deriving DecidableEq, Repr

/-- The MiHeater device handle built by MiHeater(host, token). -/
structure DeviceHandle where
  host : String
  token : String
deriving DecidableEq, Repr

/-- The fields of MiHeaterDataUpdateCoordinator fixed by its __init__
(climate.py lines 53-61): the device, and the update interval passed to the
base class, timedelta(seconds=DEFAULT_UPDATE_INTERVAL), recorded in seconds. -/
structure MiHeaterDataUpdateCoordinator where
  device : DeviceHandle
  update_interval_seconds : Nat
deriving DecidableEq, Repr

/-- MiHeaterDataUpdateCoordinator.__init__(hass, device): stores the device
and always sets update_interval to timedelta(seconds=DEFAULT_UPDATE_INTERVAL).
It receives no config entry and reads no per-entry option. -/
def coordinator_init (device : DeviceHandle) : MiHeaterDataUpdateCoordinator :=
  { device := device, update_interval_seconds := DEFAULT_UPDATE_INTERVAL }

/-- climate.py async_setup_entry (lines 29-47), restricted to the coordinator
it constructs: reads host and token from the entry data, builds
MiHeater(host, token) and MiHeaterDataUpdateCoordinator(hass, device). -/
def climate_setup_coordinator (entry : ConfigEntryData) :
    MiHeaterDataUpdateCoordinator :=
  coordinator_init { host := entry.host, token := entry.token }

/-! ## Coordinator polling state (climate.py lines 63-69 plus host base class) -/

/-- What one run of _async_update_data raises: UpdateFailed wrapping a
DeviceException (the only exception the method catches), or any other
exception propagating unwrapped (e.g. OSError). -/
inductive UpdateRaise where
  | updateFailed (k : DeviceErrorKind)
  | unhandled (e : DevError)
deriving DecidableEq, Repr

/-- _async_update_data (climate.py lines 63-69): runs device.status() in the
executor and returns its data; a DeviceException is caught and re-raised as
UpdateFailed; any other exception propagates unwrapped. -/
def _async_update_data (status : CallResult DeviceStatus) :
    Except UpdateRaise DeviceStatus :=
  match status with
  | .ok s => Except.ok s
  | .exn (.deviceException k) => Except.error (.updateFailed k)
  | .exn .osError => Except.error (.unhandled .osError)

/-- The controller state kept by the coordinator: last fetched data (None
before the first success), the success flag, and the last stored exception. -/
structure CoordinatorState where
  data : Option DeviceStatus
  last_update_success : Bool
  last_exception : Option UpdateRaise
deriving DecidableEq, Repr

/-- Coordinator state before any refresh: no data, no recorded exception. -/
def initialCoordinatorState : CoordinatorState :=
  { data := none, last_update_success := true, last_exception := none }

/-- Modelled from the spec: the refresh step of the host platform's
DataUpdateCoordinator base class (not under src/; only the subclass's
_async_update_data is).  Spec §4.2: on success lastStatus is replaced and
lastError cleared; on failure lastError is set to the reported error and
lastStatus is preserved unchanged, and the failure does not propagate past
the controller boundary (the step always yields a state). -/
def coordinator_refresh (st : CoordinatorState)
    (status : CallResult DeviceStatus) : CoordinatorState :=
  match _async_update_data status with
  | .ok s =>
    { data := some s, last_update_success := true, last_exception := none }
  | .error e =>
    { data := st.data, last_update_success := false, last_exception := some e }

/-- A sequence of polls applied in order to a starting state. -/
def runPolls (st : CoordinatorState) (history : List (CallResult DeviceStatus)) :
    CoordinatorState :=
  history.foldl coordinator_refresh st

/-- The status of the most recent successful poll in a history, if any. -/
def lastSuccess : List (CallResult DeviceStatus) → Option DeviceStatus
  | [] => none
  | r :: rest =>
    match lastSuccess rest with
    | some s => some s
    | none =>
      match r with
      | .ok s => some s
      | .exn _ => none

/-! ## __init__.py async_setup_entry (lines 17-37) -/

/-- Observable outcome of __init__.py's async_setup_entry: whether the setup
probe ran, whether ConfigEntryNotReady was raised, whether the platforms were
forwarded (which is what creates the climate entity and its coordinator), the
update interval of the created coordinator when one exists (the periodic
timer), and the returned value (None when an exception propagated). -/
structure SetupOutcome where
  probeAttempted : Bool
  raisedConfigEntryNotReady : Bool
  platformsForwarded : Bool
  timerIntervalSeconds : Option Nat
  returned : Option Bool
deriving DecidableEq, Repr

/-- __init__.py async_setup_entry: stores the entry data, builds
Heater(host, token), runs device.status() in the executor; on DeviceException
or OSError it raises ConfigEntryNotReady, so platform forwarding never runs
and no coordinator (hence no periodic timer) is created.  On probe success it
forwards to the climate platform, whose async_setup_entry builds the
coordinator and awaits async_config_entry_first_refresh; per the spec a
failing first refresh propagates the not-ready signal and no timer runs,
while on success the coordinator polls at its update interval. -/
def init_async_setup_entry (entry : ConfigEntryData)
    (probe first_refresh : CallResult DeviceStatus) : SetupOutcome :=
  match probe with
  | .exn _ =>
    { probeAttempted := true, raisedConfigEntryNotReady := true,
      platformsForwarded := false, timerIntervalSeconds := none,
      returned := none }
  | .ok _ =>
    match first_refresh with
    | .exn _ =>
      { probeAttempted := true, raisedConfigEntryNotReady := true,
        platformsForwarded := true, timerIntervalSeconds := none,
        returned := none }
    | .ok _ =>
      { probeAttempted := true, raisedConfigEntryNotReady := false,
        platformsForwarded := true,
        timerIntervalSeconds :=
          some (climate_setup_coordinator entry).update_interval_seconds,
        returned := some true }

/-! ## Theorems -/

/-- Helper: after a run of polls, the coordinator's data is the status of the
most recent successful poll, or the starting data when no poll succeeded. -/
theorem runPolls_data_eq (history : List (CallResult DeviceStatus)) :
    ∀ st : CoordinatorState,
      (runPolls st history).data =
        match lastSuccess history with
        | some s => some s
        | none => st.data := by
  induction history with
  | nil => intro st; rfl
  | cons r rest ih =>
    intro st
    have h1 : runPolls st (r :: rest) = runPolls (coordinator_refresh st r) rest := rfl
    rw [h1, ih]
    cases hrest : lastSuccess rest with
    | some s => simp [lastSuccess, hrest]
    | none =>
      cases r with
      | ok s => simp [lastSuccess, hrest, coordinator_refresh, _async_update_data]
      | exn e =>
        cases e <;>
          simp [lastSuccess, hrest, coordinator_refresh, _async_update_data]

/-- Claim C1 (counterexample): for the out-of-range input 50 (above
max_temp = 32), async_set_temperature does invoke the device's
set_target_temperature with 50 and does request a refresh, and raises no
error: the claimed local ValidationError with no device call does not occur. -/
theorem C1_counterexample :
    max_temp < 50 ∧
    (async_set_temperature (some 50) (fun _ => CallResult.ok ())).setTargetCalls
      = [50] ∧
    (async_set_temperature (some 50) (fun _ => CallResult.ok ())).refreshRequests
      = 1 ∧
    (async_set_temperature (some 50) (fun _ => CallResult.ok ())).raised = none :=
  ⟨by norm_num [max_temp], rfl, rfl, rfl⟩

/-- Claim C1 (amended): async_set_temperature performs no local range
validation: for every value outside [min_temp, max_temp] = [16, 32] it still
invokes the device's set_target_temperature with exactly that value, raises
no local ValidationError (only a device-call exception can propagate), and
requests one refresh exactly when the device call returns normally. -/
theorem C1_no_local_validation (t : ℚ) (f : ℚ → CallResult Unit)
    (h : t < min_temp ∨ max_temp < t) :
    (async_set_temperature (some t) f).setTargetCalls = [t] ∧
    (async_set_temperature (some t) f).raised =
      (match f t with | .ok _ => none | .exn e => some e) ∧
    (async_set_temperature (some t) f).refreshRequests =
      (match f t with | .ok _ => 1 | .exn _ => 0) := by
  cases hft : f t <;> simp [async_set_temperature, hft]

/-- Claim C1 witness: the amended theorem applied at the concrete input 50
with a device that accepts the call. -/
theorem C1_witness :
    ((50 : ℚ) < min_temp ∨ max_temp < (50 : ℚ)) ∧
    (async_set_temperature (some 50) (fun _ => CallResult.ok ())).setTargetCalls
      = [50] :=
  ⟨Or.inr (by norm_num [max_temp]),
    (C1_no_local_validation 50 (fun _ => CallResult.ok ())
      (Or.inr (by norm_num [max_temp]))).1⟩

/-- Claim C2 (counterexample): with mode HEAT and a device.on call that raises
a DeviceException, async_set_hvac_mode makes the device call, propagates the
exception, and issues zero refresh requests: the follow-up refresh is
prevented, contradicting the claimed unconditional refresh. -/
theorem C2_counterexample :
    (async_set_hvac_mode .heat (.exn (.deviceException .timeout))
        (.ok ())).onCalls = 1 ∧
    (async_set_hvac_mode .heat (.exn (.deviceException .timeout))
        (.ok ())).refreshRequests = 0 ∧
    (async_set_hvac_mode .heat (.exn (.deviceException .timeout))
        (.ok ())).raised = some (.deviceException .timeout) :=
  ⟨rfl, rfl, rfl⟩

/-- Claim C2 (amended): for a HEAT or OFF command the matching device call is
always made; exactly one forced refresh follows when the device call returns
normally, while an exception raised by the device call propagates to the
caller and prevents the follow-up refresh (zero refresh requests). -/
theorem C2_refresh_only_on_success (r : CallResult Unit) :
    (async_set_hvac_mode .heat r (.ok ())).onCalls = 1 ∧
    (async_set_hvac_mode .off (.ok ()) r).offCalls = 1 ∧
    (match r with
     | .ok _ =>
        (async_set_hvac_mode .heat r (.ok ())).refreshRequests = 1 ∧
        (async_set_hvac_mode .off (.ok ()) r).refreshRequests = 1
     | .exn e =>
        (async_set_hvac_mode .heat r (.ok ())).refreshRequests = 0 ∧
        (async_set_hvac_mode .heat r (.ok ())).raised = some e ∧
        (async_set_hvac_mode .off (.ok ()) r).refreshRequests = 0 ∧
        (async_set_hvac_mode .off (.ok ()) r).raised = some e) := by
  cases r <;> simp [async_set_hvac_mode]

/-- Claim C3 (counterexample): for a config entry whose pollIntervalSeconds is
60, the coordinator's update interval is not 60: the value set by __init__ is
the constant DEFAULT_UPDATE_INTERVAL, so the claimed equality with the
configured field fails. -/
theorem C3_counterexample :
    ¬ (climate_setup_coordinator
        { host := "192.0.2.1", token := "ffffffffffffffffffffffffffffffff",
          pollIntervalSeconds := some 60 }).update_interval_seconds = 60 := by
  decide

/-- Claim C3 (amended): for every config entry the coordinator's periodic
update interval is the fixed constant DEFAULT_UPDATE_INTERVAL = 30 seconds;
no per-entry pollIntervalSeconds value is consulted. -/
theorem C3_interval_constant (entry : ConfigEntryData) :
    (climate_setup_coordinator entry).update_interval_seconds
      = DEFAULT_UPDATE_INTERVAL ∧
    DEFAULT_UPDATE_INTERVAL = 30 :=
  ⟨rfl, rfl⟩

/-- Claim C4: whenever the setup-time status probe raises any connectivity
error (DeviceException of any kind, or OSError), async_setup_entry raises
ConfigEntryNotReady, does not forward to the platforms, starts no periodic
polling timer, and returns no value. -/
theorem C4_setup_probe_failure (entry : ConfigEntryData)
    (e : DevError) (first_refresh : CallResult DeviceStatus) :
    (init_async_setup_entry entry (.exn e) first_refresh).raisedConfigEntryNotReady
      = true ∧
    (init_async_setup_entry entry (.exn e) first_refresh).platformsForwarded
      = false ∧
    (init_async_setup_entry entry (.exn e) first_refresh).timerIntervalSeconds
      = none ∧
    (init_async_setup_entry entry (.exn e) first_refresh).returned = none :=
  ⟨rfl, rfl, rfl, rfl⟩

/-- Claim C5: when a poll fails after a history whose most recent success
returned status s, the coordinator afterwards still holds data s
(stale-but-available, never reverting to none), its success flag is false,
and its stored exception is exactly the error reported by
_async_update_data for that failure. -/
theorem C5_stale_but_available (history : List (CallResult DeviceStatus))
    (s : DeviceStatus) (e : DevError)
    (h : lastSuccess history = some s) :
    (coordinator_refresh (runPolls initialCoordinatorState history)
        (.exn e)).data = some s ∧
    (coordinator_refresh (runPolls initialCoordinatorState history)
        (.exn e)).last_update_success = false ∧
    ∃ err : UpdateRaise,
      _async_update_data (.exn e) = Except.error err ∧
      (coordinator_refresh (runPolls initialCoordinatorState history)
          (.exn e)).last_exception = some err := by
  have hd := runPolls_data_eq history initialCoordinatorState
  rw [h] at hd
  cases e with
  | deviceException k =>
    exact ⟨hd, rfl, ⟨.updateFailed k, rfl, rfl⟩⟩
  | osError =>
    exact ⟨hd, rfl, ⟨.unhandled .osError, rfl, rfl⟩⟩

/-- Claim C5 witness: the theorem applied to the one-success history
[status (off, 18°, 20°)] followed by a timeout failure. -/
theorem C5_witness :
    lastSuccess [CallResult.ok (DeviceStatus.mk false 18 20)]
      = some (DeviceStatus.mk false 18 20) ∧
    (coordinator_refresh
        (runPolls initialCoordinatorState
          [CallResult.ok (DeviceStatus.mk false 18 20)])
        (.exn (.deviceException .timeout))).data
      = some (DeviceStatus.mk false 18 20) :=
  ⟨rfl,
    (C5_stale_but_available [CallResult.ok (DeviceStatus.mk false 18 20)]
      (DeviceStatus.mk false 18 20) (.deviceException .timeout) rfl).1⟩

/-- Claim C6 (counterexample): for the in-range input 20 with a device call
that raises a DeviceException, async_set_temperature forwards the value but
issues zero refresh requests, contradicting the claimed exactly-one refresh
for every input in [16, 32]. -/
theorem C6_counterexample :
    min_temp ≤ (20 : ℚ) ∧ (20 : ℚ) ≤ max_temp ∧
    (async_set_temperature (some 20)
        (fun _ => CallResult.exn (.deviceException .timeout))).setTargetCalls
      = [20] ∧
    (async_set_temperature (some 20)
        (fun _ => CallResult.exn (.deviceException .timeout))).refreshRequests
      = 0 :=
  ⟨by norm_num [min_temp], by norm_num [max_temp], rfl, rfl⟩

/-- Claim C6 (amended): for every temperature input in
[min_temp, max_temp] = [16, 32], async_set_temperature forwards exactly that
value to the device's set_target_temperature; exactly one forced refresh
follows when the device call returns normally, and none when it raises (the
exception propagating instead). -/
theorem C6_forward_and_refresh (t : ℚ) (f : ℚ → CallResult Unit)
    (h1 : min_temp ≤ t) (h2 : t ≤ max_temp) :
    (async_set_temperature (some t) f).setTargetCalls = [t] ∧
    (match f t with
     | .ok _ =>
        (async_set_temperature (some t) f).refreshRequests = 1 ∧
        (async_set_temperature (some t) f).raised = none
     | .exn e =>
        (async_set_temperature (some t) f).refreshRequests = 0 ∧
        (async_set_temperature (some t) f).raised = some e) := by
  cases hft : f t <;> simp [async_set_temperature, hft]

/-- Claim C6 witness: the amended theorem applied at the concrete in-range
input 20 with a device that accepts the call. -/
theorem C6_witness :
    min_temp ≤ (20 : ℚ) ∧ (20 : ℚ) ≤ max_temp ∧
    (async_set_temperature (some 20) (fun _ => CallResult.ok ())).setTargetCalls
      = [20] :=
  ⟨by norm_num [min_temp], by norm_num [max_temp],
    (C6_forward_and_refresh 20 (fun _ => CallResult.ok ())
      (by norm_num [min_temp]) (by norm_num [max_temp])).1⟩

/-- Claim C7: every steady-state poll failure of any connectivity kind
(timeout, refused connection, authentication mismatch) is treated uniformly:
_async_update_data wraps the DeviceException as UpdateFailed, and the refresh
step absorbs it into the stored exception while preserving the data, always
yielding a state rather than throwing past the controller boundary. -/
theorem C7_failures_absorbed (st : CoordinatorState) (k : DeviceErrorKind) :
    _async_update_data (.exn (.deviceException k))
      = Except.error (.updateFailed k) ∧
    coordinator_refresh st (.exn (.deviceException k)) =
      { data := st.data, last_update_success := false,
        last_exception := some (.updateFailed k) } :=
  ⟨rfl, rfl⟩

/-- Claim C9: calling async_set_temperature without an ATTR_TEMPERATURE value
performs no device call, requests no refresh and raises nothing, whatever the
device would have answered. -/
theorem C9_none_is_noop (f : ℚ → CallResult Unit) :
    async_set_temperature none f =
      { setTargetCalls := [], refreshRequests := 0, raised := none } :=
  rfl

/-- Claim C10: calling async_set_hvac_mode with any mode other than HEAT or
OFF performs no device call, requests no refresh and raises nothing; it only
logs the unsupported-mode error and returns. -/
theorem C10_unsupported_mode (m : HVACMode) (on_r off_r : CallResult Unit)
    (h1 : m ≠ .heat) (h2 : m ≠ .off) :
    async_set_hvac_mode m on_r off_r =
      { onCalls := 0, offCalls := 0, refreshRequests := 0,
        raised := none, loggedError := true } := by
  cases m <;> simp_all [async_set_hvac_mode]

/-- Claim C10 witness: the theorem applied at the concrete mode COOL. -/
theorem C10_witness :
    HVACMode.cool ≠ HVACMode.heat ∧ HVACMode.cool ≠ HVACMode.off ∧
    async_set_hvac_mode .cool (.ok ()) (.ok ()) =
      { onCalls := 0, offCalls := 0, refreshRequests := 0,
        raised := none, loggedError := true } :=
  ⟨by decide, by decide,
    C10_unsupported_mode .cool (.ok ()) (.ok ()) (by decide) (by decide)⟩

end MiHeater
